import Mathlib

/-!
Verification of the NOYITO 2-channel USB relay control engine
(serial_protocol.py, relay_controller_v2.py, hid_relay.py,
src/relay_unified.py) against its natural-language specification.

Python integers are modelled as `Nat` (with explicit `% 256` where the code
masks), byte strings as `List Nat`, Python booleans as `Bool`.  A Python
function that can raise an exception is modelled as returning
`Except PyErr α`: `Except.error` means an exception propagates out of the
function, `Except.ok` means a normal return.  I/O against the serial port
and the physical relay board is modelled by an explicit `World` state with
fault-injection streams (see below).
-/

/-- Python exception kinds raised by the relay code. -/
inductive PyErr where
  | valueError (msg : String)
  | runtimeError (msg : String)
deriving DecidableEq, Repr

instance {ε α : Type} [DecidableEq ε] [DecidableEq α] : DecidableEq (Except ε α) :=
  fun a b =>
    match a, b with
    | .ok x, .ok y =>
      if h : x = y then .isTrue (by rw [h])
      else .isFalse (by intro hh; cases hh; exact h rfl)
    | .ok _, .error _ => .isFalse (by intro hh; cases hh)
    | .error _, .ok _ => .isFalse (by intro hh; cases hh)
    | .error x, .error y =>
      if h : x = y then .isTrue (by rw [h])
      else .isFalse (by intro hh; cases hh; exact h rfl)

/-- Boolean substring test on character lists, used to model Python's
`needle in haystack` on strings. -/
def substrIn (needle : List Char) : List Char → Bool
  | [] => needle.isEmpty
  | c :: rest => needle.isPrefixOf (c :: rest) || substrIn needle rest

namespace RelayProtocol

/-- `RelayProtocol.START_FLAG` (serial_protocol.py line 20). -/
def START_FLAG : Nat := 0xA0

/-- `RelayProtocol.STATE_ON` (serial_protocol.py line 21). -/
def STATE_ON : Nat := 0x01

/-- `RelayProtocol.STATE_OFF` (serial_protocol.py line 22). -/
def STATE_OFF : Nat := 0x00

/-- `RelayProtocol.QUERY_CMD` (serial_protocol.py line 23). -/
def QUERY_CMD : Nat := 0xFF

/-- `RelayProtocol.calculate_checksum`: `sum(data) & 0xFF`
(serial_protocol.py lines 47-50). -/
def calculate_checksum (data : List Nat) : Nat := data.sum % 256

/-- `RelayProtocol.build_command` (serial_protocol.py lines 52-66):
raises `ValueError` unless the channel is in `[1, 2]`, otherwise returns
`[START_FLAG, relay_num, op]` with the checksum byte appended. -/
def build_command (relay_num : Nat) (state : Bool) : Except PyErr (List Nat) :=
  if relay_num ∈ ([1, 2] : List Nat) then
    let cmd : List Nat := [START_FLAG, relay_num, if state then 0x01 else 0x00]
    .ok (cmd ++ [calculate_checksum cmd])
  else
    .error (.valueError "Relay number must be 1 or 2")

/-- `RelayProtocol.parse_status` (serial_protocol.py lines 68-73):
substring search for the per-channel ON markers in the response line. -/
def parse_status (response : String) : Bool × Bool :=
  (substrIn "CH1:ON".toList response.toList,
   substrIn "CH2:ON".toList response.toList)

end RelayProtocol

/-- Environment state for the serial transport: the physical relay board, the
serial port, and fault-injection streams.  `device` is the true state of the
two relay channels.  `applies` injects a hardware fault per channel: when a
component is `false` the channel ignores set commands (so read-back
verification fails).  `writeFaults` is consumed one entry per `serial.write`
(an entry `true` makes that write incomplete).  `queryFaults` is consumed one
entry per `read_response` poll (an entry `true` means no data arrives within
the timeout).  An exhausted stream means "no fault".  `written` records every
frame passed to `serial.write`, in order. -/
structure World where
  device : Bool × Bool
  applies : Bool × Bool
  is_open : Bool
  writeFaults : List Bool
  queryFaults : List Bool
  written : List (List Nat)
deriving DecidableEq, Repr

/-- Pop the next entry of a fault stream (`false` = no fault when the stream
is exhausted). -/
def popFault : List Bool → Bool × List Bool
  | [] => (false, [])
  | f :: r => (f, r)

/-- How the relay board reacts to one frame, per the wire format of
serial_protocol.py: `[0xA0, channel, op, checksum]` sets the channel (when
the channel's `applies` flag is `true`); other bytes (e.g. the status query
`0xFF`) change no channel. -/
def applyFrame (applies : Bool × Bool) (frame : List Nat) (dev : Bool × Bool) :
    Bool × Bool :=
  match frame with
  | [0xA0, 1, op, _] => (if applies.1 then op == 1 else dev.1, dev.2)
  | [0xA0, 2, op, _] => (dev.1, if applies.2 then op == 1 else dev.2)
  | _ => dev

/-- The ASCII status line the board answers to the `0xFF` query, containing
the per-channel markers parsed by `RelayProtocol.parse_status`
(serial_protocol.py lines 68-73, spec §6). -/
def statusLine (dev : Bool × Bool) : String :=
  (if dev.1 then "CH1:ON" else "CH1:OFF") ++ " " ++
    (if dev.2 then "CH2:ON" else "CH2:OFF")

namespace World

/-- `serial.write(frame)`: the frame is recorded as issued; a write fault
makes the write incomplete (`bytes_written != len(cmd)`), in which case the
frame does not reach the board. -/
def write (w : World) (frame : List Nat) : Bool × World :=
  (!(popFault w.writeFaults).1,
   { w with
      written := w.written ++ [frame]
      writeFaults := (popFault w.writeFaults).2
      device := if (popFault w.writeFaults).1 then w.device
                else applyFrame w.applies frame w.device })

/-- `serial.close()` (`RelayProtocol.close`, serial_protocol.py lines
90-93). -/
def close (w : World) : World := { w with is_open := false }

end World

namespace RelayProtocol

/-- `RelayProtocol.send_command` (serial_protocol.py lines 95-101): raises
`RuntimeError` when the port is not open, otherwise writes the frame and
returns `bytes_written == len(cmd)`. -/
def send_command (w : World) (cmd : List Nat) : Except PyErr Bool × World :=
  if w.is_open then
    ((.ok (World.write w cmd).1), (World.write w cmd).2)
  else
    (.error (.runtimeError "Serial port not open"), w)

/-- `RelayProtocol.read_response` (serial_protocol.py lines 103-115): raises
`RuntimeError` when the port is not open; returns the pending response line,
or `none` when no data arrives within the timeout. -/
def read_response (w : World) : Except PyErr (Option String) × World :=
  if w.is_open then
    ((.ok (if (popFault w.queryFaults).1 then none
           else some (statusLine w.device))),
     { w with queryFaults := (popFault w.queryFaults).2 })
  else
    (.error (.runtimeError "Serial port not open"), w)

/-- `RelayProtocol.set_relay` (serial_protocol.py lines 117-120):
`send_command(build_command(relay_num, state))`; a `ValueError` from
`build_command` propagates. -/
def set_relay (w : World) (relay_num : Nat) (state : Bool) :
    Except PyErr Bool × World :=
  match build_command relay_num state with
  | .error e => (.error e, w)
  | .ok cmd => send_command w cmd

/-- `RelayProtocol.query_status` (serial_protocol.py lines 122-132): sends
the `0xFF` query (ignoring the write result), reads the response, parses it,
and raises `RuntimeError` when no response arrived. -/
def query_status (w : World) : Except PyErr (Bool × Bool) × World :=
  match send_command w [QUERY_CMD] with
  | (.error e, w1) => (.error e, w1)
  | (.ok _, w1) =>
    match read_response w1 with
    | (.error e, w2) => (.error e, w2)
    | (.ok (some resp), w2) => (.ok (parse_status resp), w2)
    | (.ok none, w2) => (.error (.runtimeError "No response to status query"), w2)

end RelayProtocol

/-- The controller's own state (relay_controller_v2.py): the `connected`
flag and the cached channel states `relay_states = [False, False]` — a pair
of plain booleans. -/
structure Controller where
  connected : Bool
  relay_states : Bool × Bool
deriving DecidableEq, Repr

namespace RelayController

/-- The cache as `RelayController.__init__` leaves it (relay_controller_v2.py
lines 30-32): not connected, `relay_states = [False, False]`. -/
def init : Controller := { connected := false, relay_states := (false, false) }

/-- Read `relay_states[relay_num - 1]` for `relay_num ∈ {1, 2}`. -/
def getCh (p : Bool × Bool) (n : Nat) : Bool := if n = 1 then p.1 else p.2

/-- Assign `relay_states[relay_num - 1] = state` for `relay_num ∈ {1, 2}`. -/
def setCh (p : Bool × Bool) (n : Nat) (s : Bool) : Bool × Bool :=
  if n = 1 then (s, p.2) else (p.1, s)

/-- `RelayController.get_relay_states` (relay_controller_v2.py lines 55-68):
when connected, queries the device and overwrites the whole cache with the
result; any exception is caught and the cached states are returned
unchanged. -/
def get_relay_states (c : Controller) (w : World) :
    (Bool × Bool) × Controller × World :=
  if c.connected then
    match RelayProtocol.query_status w with
    | (.ok st, w') => (st, { c with relay_states := st }, w')
    | (.error _, w') => (c.relay_states, c, w')
  else
    (c.relay_states, c, w)

/-- The cache assignment `self.relay_states[relay_num - 1] = state`
performed right after a successful send (relay_controller_v2.py line 90). -/
def with_cached (c : Controller) (relay_num : Nat) (state : Bool) : Controller :=
  { c with relay_states := setCh c.relay_states relay_num state }

/-- The read-back verification of `set_relay` (relay_controller_v2.py lines
92-102): re-read the states (which itself refreshes the cache) and compare
the addressed channel against the requested state. -/
def verify_after (c2 : Controller) (w2 : World) (relay_num : Nat)
    (state : Bool) : Bool × Controller × World :=
  if getCh (get_relay_states c2 w2).1 relay_num == state then
    (true, (get_relay_states c2 w2).2.1, (get_relay_states c2 w2).2.2)
  else
    (false, (get_relay_states c2 w2).2.1, (get_relay_states c2 w2).2.2)

/-- `RelayController.set_relay` (relay_controller_v2.py lines 70-111):
rejects when not connected or the channel is outside `[1, 2]`; otherwise
reads the current states, sends the command, writes the requested state into
the cache, and verifies by reading back; every exception inside is caught
and turned into a `False` return. -/
def set_relay (c : Controller) (w : World) (relay_num : Nat) (state : Bool) :
    Bool × Controller × World :=
  if ¬c.connected then (false, c, w)
  else if relay_num ∉ ([1, 2] : List Nat) then (false, c, w)
  else
    match RelayProtocol.set_relay (get_relay_states c w).2.2 relay_num state with
    | (.error _, w2) => (false, (get_relay_states c w).2.1, w2)
    | (.ok false, w2) => (false, (get_relay_states c w).2.1, w2)
    | (.ok true, w2) =>
      verify_after (with_cached (get_relay_states c w).2.1 relay_num state)
        w2 relay_num state

/-- `RelayController.set_all_relays` (relay_controller_v2.py lines 113-128):
channels in the fixed order 1 then 2, breaking out of the loop at the first
failure. -/
def set_all_relays (c : Controller) (w : World) (state : Bool) :
    Bool × Controller × World :=
  if ¬c.connected then (false, c, w)
  else if ¬(set_relay c w 1 state).1 then
    (false, (set_relay c w 1 state).2.1, (set_relay c w 1 state).2.2)
  else if ¬(set_relay (set_relay c w 1 state).2.1
      (set_relay c w 1 state).2.2 2 state).1 then
    (false,
     (set_relay (set_relay c w 1 state).2.1
       (set_relay c w 1 state).2.2 2 state).2.1,
     (set_relay (set_relay c w 1 state).2.1
       (set_relay c w 1 state).2.2 2 state).2.2)
  else
    (true,
     (set_relay (set_relay c w 1 state).2.1
       (set_relay c w 1 state).2.2 2 state).2.1,
     (set_relay (set_relay c w 1 state).2.1
       (set_relay c w 1 state).2.2 2 state).2.2)

/-- `RelayController.cleanup` (relay_controller_v2.py lines 130-145): when
connected, sets every channel off in order (ignoring per-channel results)
and closes the port; when not connected it does nothing.  Note the code
never resets `self.connected`. -/
def cleanup (c : Controller) (w : World) : Controller × World :=
  if c.connected then
    ((set_relay (set_relay c w 1 false).2.1
        (set_relay c w 1 false).2.2 2 false).2.1,
     World.close (set_relay (set_relay c w 1 false).2.1
        (set_relay c w 1 false).2.2 2 false).2.2)
  else (c, w)

end RelayController

/-- The exact 4-byte frame `build_command` produces for a valid channel. -/
def serial_frame (n : Nat) (s : Bool) : List Nat :=
  [0xA0, n, if s then 0x01 else 0x00,
   (0xA0 + n + (if s then 0x01 else 0x00)) % 256]

namespace HIDRelay

/-- The framing `HIDRelay.send_command` applies before `device.write`
(hid_relay.py lines 41-57): the report-ID byte `0x00` is prepended to the
data list; nothing else — in particular no padding — is applied.  The value
is the exact byte sequence handed to `device.write`. -/
def send_command (data : List Nat) : List Nat := 0x00 :: data

/-- The opcode table of `HIDRelay.set_relay` (hid_relay.py lines 82-88). -/
def relay_cmd (relay_num : Nat) (state : Bool) : Nat :=
  if relay_num = 1 then (if state then 0xFE else 0x01)
  else (if state then 0xFD else 0x02)

/-- `HIDRelay.set_relay` (hid_relay.py lines 75-90): raises `ValueError`
for a channel outside `[1, 2]`; otherwise returns the frame written. -/
def set_relay (relay_num : Nat) (state : Bool) : Except PyErr (List Nat) :=
  if relay_num ∈ ([1, 2] : List Nat) then
    .ok (send_command [relay_cmd relay_num state])
  else .error (.valueError "Relay number must be 1 or 2")

/-- `HIDRelay.set_all_relays` (hid_relay.py lines 92-96). -/
def set_all_relays (state : Bool) : List Nat :=
  send_command [if state then 0xFF else 0x00]

/-- `HIDRelay.close` (hid_relay.py lines 98-105): when a device handle
exists, sends the all-off command and closes it (exceptions swallowed);
otherwise does nothing.  The value is the list of frames issued. -/
def close (has_device : Bool) : List (List Nat) :=
  if has_device then [set_all_relays false] else []

end HIDRelay

namespace RelayCommands

/-- `RelayCommands.HID_COMMANDS['OPEN_ONE']` (src/relay_unified.py line 29). -/
def OPEN_ONE (channel : Nat) : List Nat := [0x0, 0xFF, channel]

/-- `RelayCommands.HID_COMMANDS['CLOSE_ONE']` (src/relay_unified.py line 30). -/
def CLOSE_ONE (channel : Nat) : List Nat := [0x0, 0xFD, channel]

/-- `RelayCommands.HID_COMMANDS['OPEN_ALL']` (src/relay_unified.py line 31). -/
def OPEN_ALL : List Nat := [0x0, 0xFF, 0x0]

/-- `RelayCommands.HID_COMMANDS['CLOSE_ALL']` (src/relay_unified.py line 32). -/
def CLOSE_ALL : List Nat := [0x0, 0xFD, 0x0]

end RelayCommands

namespace RelayDevice

/-- `max_retries` in `RelayDevice._send_command` (src/relay_unified.py
line 119) — the engine's `RetryPolicy.max_attempts`. -/
def max_retries : Nat := 3

/-- The padding of `_send_command` (src/relay_unified.py line 116):
`full_cmd = cmd + [0x0] * (8 - len(cmd))`. -/
def full_cmd (cmd : List Nat) : List Nat :=
  cmd ++ List.replicate (8 - cmd.length) 0x0

/-- The retry loop of `_send_command` (src/relay_unified.py lines 119-129)
under injected failures: `fails.getD i false` tells whether attempt `i`'s
write/read raises.  Result: (`.ok` = returned normally, `.error` = the last
attempt re-raised), the number of write attempts performed, and the list of
`time.sleep(0.1)` pauses (in milliseconds) performed between consecutive
attempts. -/
def sendLoop (fails : List Bool) : Nat → Nat → Except Unit Unit × Nat × List Nat
  | _, 0 => (.ok (), 0, [])
  | attempt, fuel + 1 =>
    if fails.getD attempt false then
      if attempt = max_retries - 1 then (.error (), 1, [])
      else
        ((sendLoop fails (attempt + 1) fuel).1,
         (sendLoop fails (attempt + 1) fuel).2.1 + 1,
         100 :: (sendLoop fails (attempt + 1) fuel).2.2)
    else (.ok (), 1, [])

/-- `RelayDevice._send_command` (src/relay_unified.py lines 107-134): not
connected → `False` immediately; otherwise the retry loop runs, and when the
last attempt re-raises, the outer handler logs, sets `connected = False`
and returns `False`.  Result: (returned value, `connected` afterwards,
attempts performed, sleeps between attempts). -/
def send_cmd (connected : Bool) (fails : List Bool) :
    Bool × Bool × Nat × List Nat :=
  if connected then
    match sendLoop fails 0 max_retries with
    | (.ok _, a, d) => (true, connected, a, d)
    | (.error _, a, d) => (false, false, a, d)
  else (false, connected, 0, [])

/-- The frame `_send_command` writes for "set channel to state"
(`OPEN_ONE`/`CLOSE_ONE` padded to 8 bytes). -/
def set_channel_frame (channel : Nat) (state : Bool) : List Nat :=
  full_cmd (if state then RelayCommands.OPEN_ONE channel
            else RelayCommands.CLOSE_ONE channel)

end RelayDevice

/-- Environment for C3/C7: open port on which no status response arrives. -/
def wNoResp : World :=
  { device := (false, false), applies := (true, true), is_open := true,
    writeFaults := [], queryFaults := [true], written := [] }

/-- Environment for C10: channel 1 of the board is stuck (ignores
commands), everything else healthy. -/
def wStuck : World :=
  { device := (false, false), applies := (false, true), is_open := true,
    writeFaults := [], queryFaults := [], written := [] }

/-- A connected controller with an all-off cache. -/
def cConn : Controller := { connected := true, relay_states := (false, false) }

/-- A fully healthy environment: open port, responsive board, no faults. -/
def wHealthy : World :=
  { device := (false, false), applies := (true, true), is_open := true,
    writeFaults := [], queryFaults := [], written := [] }

/-- `Keeps w w'`: an operation step from `w` to `w'` neither changed whether
the port is open nor removed anything from the record of issued frames. -/
def Keeps (w w' : World) : Prop :=
  w'.is_open = w.is_open ∧ ∃ t, w'.written = w.written ++ t

/-- C1: on the serial transport, for every channel n ∈ {1,2} and every state
s, `build_command(n, s)` returns exactly the 4-byte frame
`[0xA0, n, op, checksum]` where op is 0x01 for On and 0x00 for Off and the
checksum is the sum of the first three bytes mod 256; in particular
`build_command(1, On) = [0xA0, 0x01, 0x01, 0xA2]` and
`build_command(2, Off) = [0xA0, 0x02, 0x00, 0xA2]`. -/
theorem C1_serial_build_command (n : Nat) (s : Bool) (hn : n = 1 ∨ n = 2) :
    RelayProtocol.build_command n s =
      .ok [0xA0, n, if s then 0x01 else 0x00,
           (0xA0 + n + (if s then 0x01 else 0x00)) % 256] ∧
    (∀ frame, RelayProtocol.build_command n s = .ok frame →
      frame.length = 4 ∧
      frame.getLast? = some (RelayProtocol.calculate_checksum (frame.take 3))) ∧
    RelayProtocol.build_command 1 true = .ok [0xA0, 0x01, 0x01, 0xA2] ∧
    RelayProtocol.build_command 2 false = .ok [0xA0, 0x02, 0x00, 0xA2] := by
  have key : ∀ (m : Nat) (t : Bool) (frame : List Nat),
      RelayProtocol.build_command m t = .ok frame →
      frame = [0xA0, m, if t then 0x01 else 0x00,
               (0xA0 + m + (if t then 0x01 else 0x00)) % 256] := by
    intro m t frame hf
    unfold RelayProtocol.build_command at hf
    split at hf
    · injection hf with h
      subst h
      cases t <;>
        simp [RelayProtocol.calculate_checksum, RelayProtocol.START_FLAG] <;> omega
    · cases hf
  refine ⟨?_, fun frame hf => ?_, by decide, by decide⟩
  · rcases hn with rfl | rfl <;> cases s <;> decide
  · have h := key n s frame hf
    subst h
    rcases hn with rfl | rfl <;> cases s <;> decide

/-- Witness for C1 at channel 1, state On. -/
theorem C1_serial_build_command_witness :
    RelayProtocol.build_command 1 true =
      .ok [0xA0, 1, if true then 0x01 else 0x00,
           (0xA0 + 1 + (if true then 0x01 else 0x00)) % 256] :=
  (C1_serial_build_command 1 true (Or.inl rfl)).1

theorem query_status_no_response (w : World) (hopen : w.is_open = true)
    (hq : (popFault w.queryFaults).1 = true) :
    RelayProtocol.query_status w =
      (.error (.runtimeError "No response to status query"),
       { (World.write w [RelayProtocol.QUERY_CMD]).2 with
          queryFaults := (popFault w.queryFaults).2 }) := by
  simp [RelayProtocol.query_status, RelayProtocol.send_command,
    RelayProtocol.read_response, World.write, hopen, hq]

theorem get_relay_states_caught (c : Controller) (w : World)
    (hc : c.connected = true)
    (herr : ∃ e, (RelayProtocol.query_status w).1 = .error e) :
    (RelayController.get_relay_states c w).1 = c.relay_states ∧
    (RelayController.get_relay_states c w).2.1 = c := by
  obtain ⟨e, he⟩ := herr
  rcases hqq : RelayProtocol.query_status w with ⟨r, w'⟩
  rw [hqq] at he
  simp only at he
  subst he
  simp [RelayController.get_relay_states, hc, hqq]

/-- C3 (counterexample): on an open port on which no response data arrives
within the read timeout, the status-query operation does not return a
`None`/absent mapping — `query_status` raises `RuntimeError("No response to
status query")` (modelled as `Except.error`), so it fails rather than
returning an "unknown" outcome. -/
theorem C3_counterexample :
    (RelayProtocol.query_status wNoResp).1 =
      .error (.runtimeError "No response to status query") ∧
    ∀ st : Bool × Bool, (RelayProtocol.query_status wNoResp).1 ≠ .ok st := by
  decide

/-- C3 (amended): when no response data arrives within the read timeout,
`read_response` returns `None` as a normal non-fatal outcome, but
`query_status` then raises `RuntimeError` instead of returning an absent
mapping; the controller's `get_relay_states` catches that exception and
returns the cached states unchanged. -/
theorem C3_read_timeout_behavior (c : Controller) (w : World)
    (hc : c.connected = true) (hopen : w.is_open = true)
    (hq : (popFault w.queryFaults).1 = true) :
    (RelayProtocol.read_response w).1 = .ok none ∧
    (RelayProtocol.query_status w).1 =
      .error (.runtimeError "No response to status query") ∧
    (RelayController.get_relay_states c w).1 = c.relay_states ∧
    (RelayController.get_relay_states c w).2.1 = c := by
  have hqs := query_status_no_response w hopen hq
  have hcaught := get_relay_states_caught c w hc ⟨_, by rw [hqs]⟩
  refine ⟨?_, by rw [hqs], hcaught.1, hcaught.2⟩
  simp [RelayProtocol.read_response, hopen, hq]

/-- Witness for C3 (amended) at a concrete connected controller and a port
with no pending response. -/
theorem C3_read_timeout_behavior_witness :
    (RelayProtocol.read_response wNoResp).1 = .ok none ∧
    (RelayProtocol.query_status wNoResp).1 =
      .error (.runtimeError "No response to status query") ∧
    (RelayController.get_relay_states cConn wNoResp).1 = cConn.relay_states ∧
    (RelayController.get_relay_states cConn wNoResp).2.1 = cConn :=
  C3_read_timeout_behavior cConn wNoResp rfl rfl rfl

/-- C4 (counterexample): for channel 3 the HID transport does not return an
`InvalidChannel` error outcome — `HIDRelay.set_relay` raises `ValueError`
(modelled as `Except.error`, an exception propagating out of the engine),
and the serial codec's `build_command` raises the same way. -/
theorem C4_counterexample :
    HIDRelay.set_relay 3 true =
      .error (.valueError "Relay number must be 1 or 2") ∧
    RelayProtocol.build_command 3 true =
      .error (.valueError "Relay number must be 1 or 2") := by decide

/-- C4 (amended): for every channel outside {1, 2} the request is rejected
immediately, with no retry and no I/O: the serial controller's `set_relay`
returns `False` leaving controller and world untouched, while
`RelayProtocol.build_command` and `HIDRelay.set_relay` raise `ValueError`
(an exception, not a returned error outcome). -/
theorem C4_invalid_channel (n : Nat) (s : Bool) (hn : ¬(n = 1 ∨ n = 2)) :
    (∀ (c : Controller) (w : World),
      RelayController.set_relay c w n s = (false, c, w)) ∧
    RelayProtocol.build_command n s =
      .error (.valueError "Relay number must be 1 or 2") ∧
    HIDRelay.set_relay n s =
      .error (.valueError "Relay number must be 1 or 2") := by
  have hm : n ∉ ([1, 2] : List Nat) := by
    intro h
    exact hn (by simpa using h)
  refine ⟨fun c w => ?_, ?_, ?_⟩
  · by_cases hcc : c.connected
    · simp [RelayController.set_relay, hcc, hm]
    · simp [RelayController.set_relay, hcc]
  · simp [RelayProtocol.build_command, hm]
  · simp [HIDRelay.set_relay, hm]

/-- Witness for C4 (amended) at channel 3, evaluated at a concrete
controller and world. -/
theorem C4_invalid_channel_witness :
    RelayController.set_relay cConn wHealthy 3 true = (false, cConn, wHealthy) ∧
    RelayProtocol.build_command 3 true =
      .error (.valueError "Relay number must be 1 or 2") ∧
    HIDRelay.set_relay 3 true =
      .error (.valueError "Relay number must be 1 or 2") :=
  ⟨(C4_invalid_channel 3 true (by decide)).1 cConn wHealthy,
   (C4_invalid_channel 3 true (by decide)).2.1,
   (C4_invalid_channel 3 true (by decide)).2.2⟩

/-- C7 (counterexample): the controller's cached channel state type is a
plain `Bool` — it has exactly the two values Off (`false`) and On (`true`),
so no `Unknown` value distinct from Off and On exists; moreover the cache a
fresh controller starts with (before any confirmed write) already reads
`(Off, Off)`, not Unknown. -/
theorem C7_counterexample :
    RelayController.init.relay_states = (false, false) ∧
    (∀ b : Bool, b = false ∨ b = true) := by decide

/-- C7 (amended): the controller's per-channel cache is a plain boolean
with no Unknown value; `__init__` seeds it to `(Off, Off)` before anything
is confirmed, and when a status read fails (e.g. connection loss) the cache
keeps its previous value instead of being marked Unknown. -/
theorem C7_cache_boolean (c : Controller) (w : World)
    (hc : c.connected = true) (hopen : w.is_open = true)
    (hq : (popFault w.queryFaults).1 = true) :
    RelayController.init.relay_states = (false, false) ∧
    (∀ b : Bool, b = false ∨ b = true) ∧
    (RelayController.get_relay_states c w).2.1.relay_states =
      c.relay_states := by
  have hqs := query_status_no_response w hopen hq
  have hcaught := get_relay_states_caught c w hc ⟨_, by rw [hqs]⟩
  exact ⟨rfl, fun b => by cases b <;> simp, by rw [hcaught.2]⟩

/-- Witness for C7 (amended), with the two-valuedness conjunct evaluated
at the concrete cache value `true`. -/
theorem C7_cache_boolean_witness :
    RelayController.init.relay_states = (false, false) ∧
    (true = false ∨ true = true) ∧
    (RelayController.get_relay_states cConn wNoResp).2.1.relay_states =
      cConn.relay_states :=
  ⟨(C7_cache_boolean cConn wNoResp rfl rfl rfl).1,
   (C7_cache_boolean cConn wNoResp rfl rfl rfl).2.1 true,
   (C7_cache_boolean cConn wNoResp rfl rfl rfl).2.2⟩

/-- C2: when every write attempt fails, `_send_command` (the unified
engine's set-channel path) performs exactly `max_retries` (= the spec's
`RetryPolicy.max_attempts` = 3) attempts, with the fixed 100 ms
(`time.sleep(0.1)`) delay elapsed between each pair of consecutive
attempts, and only then returns the failed outcome (`False`, with the
connection marked lost — the transport I/O error is not surfaced on the
first failure). -/
theorem C2_retry_exhaustion (channel : Nat) (state : Bool) (fails : List Bool)
    (hch : channel = 1 ∨ channel = 2)
    (h : ∀ i, i < RelayDevice.max_retries → fails.getD i false = true) :
    RelayDevice.send_cmd true fails =
      (false, false, RelayDevice.max_retries,
       List.replicate (RelayDevice.max_retries - 1) 100) ∧
    (RelayDevice.set_channel_frame channel state).length = 8 ∧
    RelayDevice.max_retries = 3 := by
  have h0 := h 0 (by decide)
  have h1 := h 1 (by decide)
  have h2 := h 2 (by decide)
  simp only [List.getD, List.get?_eq_getElem?] at h0 h1 h2
  refine ⟨?_, ?_, rfl⟩
  · simp [RelayDevice.send_cmd, RelayDevice.sendLoop, RelayDevice.max_retries,
      List.getD, h0, h1, h2]
  · rcases hch with rfl | rfl <;> cases state <;> decide

/-- Witness for C2: all three write attempts fail. -/
theorem C2_retry_exhaustion_witness :
    RelayDevice.send_cmd true [true, true, true] =
      (false, false, RelayDevice.max_retries,
       List.replicate (RelayDevice.max_retries - 1) 100) ∧
    (RelayDevice.set_channel_frame 1 true).length = 8 ∧
    RelayDevice.max_retries = 3 :=
  C2_retry_exhaustion 1 true [true, true, true] (Or.inl rfl) (by decide)

/-- C8 (counterexample): the frame `hid_relay.py` writes for relay-1 on is
exactly `[0x00, 0xFE]` — two bytes, not zero-padded to the device's fixed
8-byte report size (the padding the claim describes exists only in the
`relay_unified` variant, whose frames are 8 bytes long). -/
theorem C8_counterexample :
    HIDRelay.set_relay 1 true = .ok [0x00, 0xFE] ∧
    ([0x00, 0xFE] : List Nat).length = 2 ∧
    (RelayDevice.set_channel_frame 1 true).length = 8 ∧
    ([0x00, 0xFE] : List Nat).length ≠
      (RelayDevice.set_channel_frame 1 true).length := by decide

/-- C8 (amended): every `HIDRelay` frame has the leading report-ID byte 0
and the opcode from the table (relay-1 on `0xFE` / off `0x01`, relay-2 on
`0xFD` / off `0x02`, all-on `0xFF`, all-off `0x00`), but is exactly 2 bytes
long — no zero-padding is applied; the zero-padding to the fixed 8-byte
report belongs to the `relay_unified` profile, which uses the other opcode
table (`0xFF`/`0xFD` plus an explicit channel byte). -/
theorem C8_hid_frames (n : Nat) (s : Bool) (hn : n = 1 ∨ n = 2) :
    HIDRelay.set_relay n s = .ok [0x00, HIDRelay.relay_cmd n s] ∧
    HIDRelay.relay_cmd 1 true = 0xFE ∧ HIDRelay.relay_cmd 1 false = 0x01 ∧
    HIDRelay.relay_cmd 2 true = 0xFD ∧ HIDRelay.relay_cmd 2 false = 0x02 ∧
    HIDRelay.set_all_relays true = [0x00, 0xFF] ∧
    HIDRelay.set_all_relays false = [0x00, 0x00] ∧
    (HIDRelay.send_command [HIDRelay.relay_cmd n s]).length = 2 ∧
    RelayDevice.set_channel_frame n s =
      [0x00, if s then 0xFF else 0xFD, n, 0x00, 0x00, 0x00, 0x00, 0x00] := by
  rcases hn with rfl | rfl <;> cases s <;> decide

/-- Witness for C8 (amended) at relay 1, on. -/
theorem C8_hid_frames_witness :
    HIDRelay.set_relay 1 true = .ok [0x00, HIDRelay.relay_cmd 1 true] ∧
    HIDRelay.relay_cmd 1 true = 0xFE ∧ HIDRelay.relay_cmd 1 false = 0x01 ∧
    HIDRelay.relay_cmd 2 true = 0xFD ∧ HIDRelay.relay_cmd 2 false = 0x02 ∧
    HIDRelay.set_all_relays true = [0x00, 0xFF] ∧
    HIDRelay.set_all_relays false = [0x00, 0x00] ∧
    (HIDRelay.send_command [HIDRelay.relay_cmd 1 true]).length = 2 ∧
    RelayDevice.set_channel_frame 1 true =
      [0x00, if true then 0xFF else 0xFD, 1, 0x00, 0x00, 0x00, 0x00, 0x00] :=
  C8_hid_frames 1 true (Or.inl rfl)

/-- C6: `set_all_relays(s)` applies `set_relay` in the fixed order 1 then 2,
stops at the first per-channel failure and reports it (returns `False`), and
does not roll back channels already changed.  First scenario: channel 1
succeeds and channel 2 fails (its hardware ignores commands, so read-back
verification fails) — channel 1 remains in state `s` on the board and in
the cache while the overall result is `False`.  Second scenario: channel 1
fails — the loop breaks, the channel-2 command is never issued (its frame
is absent from the write record) while channel 1's frame was issued. -/
theorem C6_set_all_order (c : Controller) (s d1 d2 : Bool)
    (hc : c.connected = true) :
    (let wA : World := ⟨(d1, !s), (true, false), true, [], [], []⟩
     let r := RelayController.set_all_relays c wA s
     r.1 = false ∧ r.2.2.device = (s, !s) ∧ r.2.1.relay_states = (s, !s)) ∧
    (let wB : World := ⟨(!s, d2), (false, true), true, [], [], []⟩
     let r := RelayController.set_all_relays c wB s
     r.1 = false ∧ r.2.2.device = (!s, d2) ∧
     serial_frame 1 s ∈ r.2.2.written ∧
     serial_frame 2 s ∉ r.2.2.written) := by
  obtain ⟨conn, x1, x2⟩ := c
  simp only at hc
  subst hc
  cases s <;> cases d1 <;> cases d2 <;> cases x1 <;> cases x2 <;> decide

/-- Witness for C6 at a concrete connected controller, `s = On`. -/
theorem C6_set_all_order_witness :
    (let wA : World := ⟨(false, !true), (true, false), true, [], [], []⟩
     let r := RelayController.set_all_relays cConn wA true
     r.1 = false ∧ r.2.2.device = (true, !true) ∧
     r.2.1.relay_states = (true, !true)) ∧
    (let wB : World := ⟨(!true, false), (false, true), true, [], [], []⟩
     let r := RelayController.set_all_relays cConn wB true
     r.1 = false ∧ r.2.2.device = (!true, false) ∧
     serial_frame 1 true ∈ r.2.2.written ∧
     serial_frame 2 true ∉ r.2.2.written) :=
  C6_set_all_order cConn true false false rfl

/-- C9: on a healthy device (applies commands, answers queries, no transport
faults), `set_relay(n, s)` is idempotent: the second identical call also
succeeds and leaves the observable relay state — board state and cached
state — identical to a single call. -/
theorem C9_set_relay_idempotent (c : Controller) (d1 d2 : Bool)
    (n : Nat) (s : Bool) (hc : c.connected = true) (hn : n = 1 ∨ n = 2) :
    let w : World := ⟨(d1, d2), (true, true), true, [], [], []⟩
    let r1 := RelayController.set_relay c w n s
    let r2 := RelayController.set_relay r1.2.1 r1.2.2 n s
    r1.1 = true ∧ r2.1 = true ∧
    r2.2.1.relay_states = r1.2.1.relay_states ∧
    r2.2.2.device = r1.2.2.device := by
  obtain ⟨conn, x1, x2⟩ := c
  simp only at hc
  subst hc
  rcases hn with rfl | rfl <;>
    cases s <;> cases d1 <;> cases d2 <;> cases x1 <;> cases x2 <;> decide

/-- Witness for C9 at channel 1, state On, board initially all-off. -/
theorem C9_set_relay_idempotent_witness :
    let w : World := ⟨(false, false), (true, true), true, [], [], []⟩
    let r1 := RelayController.set_relay cConn w 1 true
    let r2 := RelayController.set_relay r1.2.1 r1.2.2 1 true
    r1.1 = true ∧ r2.1 = true ∧
    r2.2.1.relay_states = r1.2.1.relay_states ∧
    r2.2.2.device = r1.2.2.device :=
  C9_set_relay_idempotent cConn false false 1 true rfl (Or.inl rfl)

/-- C10 (counterexample): on a board whose channel 1 ignores commands, the
command write succeeds but verification fails, `set_relay(1, On)` returns
`False` — and the cache for channel 1 then holds the observed state
(`False` = Off), not the requested state `On`: the verification read-back
overwrote the cache, refuting the claim that the cache keeps the requested
state after a verification-failure return. -/
theorem C10_counterexample :
    (RelayController.set_relay cConn wStuck 1 true).1 = false ∧
    (RelayController.set_relay cConn wStuck 1 true).2.1.relay_states.1 = false ∧
    (RelayController.set_relay cConn wStuck 1 true).2.1.relay_states.1 ≠ true := by
  decide

/-- C10 (amended): after a successful command write, `set_relay` stores the
requested state `s` in the cache before verification, but the verification
query overwrites the whole cache with the device-observed states: after a
verification-failure (`False`) return the cache for channel `n` equals the
observed state `!s`, not `s`.  The cache keeps `s` only when the
verification read itself fails — in which case the comparison runs against
the cache just written and `set_relay` even returns `True`. -/
theorem C10_cache_overwritten (c : Controller) (s b : Bool) (n : Nat)
    (hc : c.connected = true) (hn : n = 1 ∨ n = 2) :
    (let w : World :=
       ⟨if n = 1 then (!s, b) else (b, !s),
        if n = 1 then (false, true) else (true, false), true, [], [], []⟩
     let r := RelayController.set_relay c w n s
     r.1 = false ∧ RelayController.getCh r.2.1.relay_states n = !s ∧
     RelayController.getCh r.2.1.relay_states n ≠ s) ∧
    (let w2 : World :=
       ⟨if n = 1 then (!s, b) else (b, !s),
        if n = 1 then (false, true) else (true, false), true, [],
        [false, true], []⟩
     let r2 := RelayController.set_relay c w2 n s
     r2.1 = true ∧ RelayController.getCh r2.2.1.relay_states n = s) := by
  obtain ⟨conn, x1, x2⟩ := c
  simp only at hc
  subst hc
  rcases hn with rfl | rfl <;>
    cases s <;> cases b <;> cases x1 <;> cases x2 <;> decide

/-- Witness for C10 (amended) at channel 1, requested state On. -/
theorem C10_cache_overwritten_witness :
    (let w : World :=
       ⟨if 1 = 1 then (!true, false) else (false, !true),
        if 1 = 1 then (false, true) else (true, false), true, [], [], []⟩
     let r := RelayController.set_relay cConn w 1 true
     r.1 = false ∧ RelayController.getCh r.2.1.relay_states 1 = !true ∧
     RelayController.getCh r.2.1.relay_states 1 ≠ true) ∧
    (let w2 : World :=
       ⟨if 1 = 1 then (!true, false) else (false, !true),
        if 1 = 1 then (false, true) else (true, false), true, [],
        [false, true], []⟩
     let r2 := RelayController.set_relay cConn w2 1 true
     r2.1 = true ∧ RelayController.getCh r2.2.1.relay_states 1 = true) :=
  C10_cache_overwritten cConn true false 1 rfl (Or.inl rfl)

theorem keeps_refl (w : World) : Keeps w w := ⟨rfl, [], by simp⟩

theorem keeps_trans {w1 w2 w3 : World} (h1 : Keeps w1 w2) (h2 : Keeps w2 w3) :
    Keeps w1 w3 := by
  obtain ⟨ho1, t1, ht1⟩ := h1
  obtain ⟨ho2, t2, ht2⟩ := h2
  exact ⟨ho2.trans ho1, t1 ++ t2, by rw [ht2, ht1, List.append_assoc]⟩

theorem mem_written_of_keeps {w w' : World} {a : List Nat}
    (h : a ∈ w.written) (hk : Keeps w w') : a ∈ w'.written := by
  obtain ⟨-, t, ht⟩ := hk
  rw [ht]
  exact List.mem_append_left _ h

theorem keeps_write (w : World) (f : List Nat) : Keeps w (World.write w f).2 :=
  ⟨rfl, [f], rfl⟩

theorem keeps_send (w : World) (cmd : List Nat) :
    Keeps w (RelayProtocol.send_command w cmd).2 := by
  by_cases h : w.is_open = true
  · simpa [RelayProtocol.send_command, h] using keeps_write w cmd
  · simpa [RelayProtocol.send_command, h] using keeps_refl w

theorem keeps_read (w : World) : Keeps w (RelayProtocol.read_response w).2 := by
  by_cases h : w.is_open = true
  · exact ⟨by simp [RelayProtocol.read_response, h], [],
      by simp [RelayProtocol.read_response, h]⟩
  · simpa [RelayProtocol.read_response, h] using keeps_refl w

theorem keeps_query (w : World) : Keeps w (RelayProtocol.query_status w).2 := by
  unfold RelayProtocol.query_status
  split
  · rename_i e w1 heq
    have h := keeps_send w [RelayProtocol.QUERY_CMD]
    rw [heq] at h
    exact h
  · rename_i b w1 heq
    have h1 := keeps_send w [RelayProtocol.QUERY_CMD]
    rw [heq] at h1
    split
    · rename_i e w2 heq2
      have h2 := keeps_read w1
      rw [heq2] at h2
      exact keeps_trans h1 h2
    · rename_i resp w2 heq2
      have h2 := keeps_read w1
      rw [heq2] at h2
      exact keeps_trans h1 h2
    · rename_i w2 heq2
      have h2 := keeps_read w1
      rw [heq2] at h2
      exact keeps_trans h1 h2

theorem keeps_get (c : Controller) (w : World) :
    Keeps w (RelayController.get_relay_states c w).2.2 := by
  unfold RelayController.get_relay_states
  split
  · split
    · rename_i st w' heq
      have h := keeps_query w
      rw [heq] at h
      exact h
    · rename_i e w' heq
      have h := keeps_query w
      rw [heq] at h
      exact h
  · exact keeps_refl w

theorem get_connected (c : Controller) (w : World) :
    ((RelayController.get_relay_states c w).2.1).connected = c.connected := by
  unfold RelayController.get_relay_states
  split
  · split
    · rfl
    · rfl
  · rfl

theorem keeps_proto_set (w : World) (n : Nat) (s : Bool) :
    Keeps w (RelayProtocol.set_relay w n s).2 := by
  unfold RelayProtocol.set_relay
  split
  · exact keeps_refl w
  · rename_i cmd heq
    exact keeps_send w cmd

theorem keeps_verify (c2 : Controller) (w2 : World) (n : Nat) (s : Bool) :
    Keeps w2 (RelayController.verify_after c2 w2 n s).2.2 := by
  unfold RelayController.verify_after
  split
  · exact keeps_get c2 w2
  · exact keeps_get c2 w2

theorem verify_connected (c2 : Controller) (w2 : World) (n : Nat) (s : Bool) :
    ((RelayController.verify_after c2 w2 n s).2.1).connected = c2.connected := by
  unfold RelayController.verify_after
  split
  · exact get_connected c2 w2
  · exact get_connected c2 w2

theorem keeps_set_relay (c : Controller) (w : World) (n : Nat) (s : Bool) :
    Keeps w (RelayController.set_relay c w n s).2.2 := by
  unfold RelayController.set_relay
  split
  · exact keeps_refl w
  · split
    · exact keeps_refl w
    · split
      · rename_i e w2 heq
        have h := keeps_proto_set (RelayController.get_relay_states c w).2.2 n s
        rw [heq] at h
        exact keeps_trans (keeps_get c w) h
      · rename_i w2 heq
        have h := keeps_proto_set (RelayController.get_relay_states c w).2.2 n s
        rw [heq] at h
        exact keeps_trans (keeps_get c w) h
      · rename_i w2 heq
        have h := keeps_proto_set (RelayController.get_relay_states c w).2.2 n s
        rw [heq] at h
        exact keeps_trans (keeps_trans (keeps_get c w) h)
          (keeps_verify _ w2 n s)

theorem set_relay_connected (c : Controller) (w : World) (n : Nat) (s : Bool) :
    ((RelayController.set_relay c w n s).2.1).connected = c.connected := by
  unfold RelayController.set_relay
  split
  · rfl
  · split
    · rfl
    · split
      · rename_i e w2 heq
        exact get_connected c w
      · rename_i w2 heq
        exact get_connected c w
      · rename_i w2 heq
        exact (verify_connected _ w2 n s).trans (get_connected c w)

theorem build_command_valid (n : Nat) (s : Bool) (hn : n = 1 ∨ n = 2) :
    RelayProtocol.build_command n s = .ok (serial_frame n s) := by
  rcases hn with rfl | rfl <;> cases s <;> decide

theorem set_relay_issues_frame (c : Controller) (w : World) (n : Nat) (s : Bool)
    (hc : c.connected = true) (hopen : w.is_open = true) (hn : n = 1 ∨ n = 2) :
    serial_frame n s ∈ ((RelayController.set_relay c w n s).2.2).written := by
  have hm : n ∈ ([1, 2] : List Nat) := by rcases hn with rfl | rfl <;> decide
  unfold RelayController.set_relay
  rw [if_neg (not_not_intro hc), if_neg (not_not_intro hm)]
  have hopen1 : (RelayController.get_relay_states c w).2.2.is_open = true :=
    (keeps_get c w).1.trans hopen
  have hset1 : RelayProtocol.set_relay
        (RelayController.get_relay_states c w).2.2 n s =
      RelayProtocol.send_command
        (RelayController.get_relay_states c w).2.2 (serial_frame n s) := by
    unfold RelayProtocol.set_relay
    rw [build_command_valid n s hn]
  have hset2 : RelayProtocol.send_command
        (RelayController.get_relay_states c w).2.2 (serial_frame n s) =
      (.ok (World.write (RelayController.get_relay_states c w).2.2
          (serial_frame n s)).1,
       (World.write (RelayController.get_relay_states c w).2.2
          (serial_frame n s)).2) := by
    unfold RelayProtocol.send_command
    rw [if_pos hopen1]
  rw [hset1.trans hset2]
  have hmemw : serial_frame n s ∈
      (World.write (RelayController.get_relay_states c w).2.2
        (serial_frame n s)).2.written := by
    simp [World.write]
  cases hb : (World.write (RelayController.get_relay_states c w).2.2
      (serial_frame n s)).1 with
  | false => exact hmemw
  | true => exact mem_written_of_keeps hmemw (keeps_verify _ _ n s)

theorem query_status_closed (w : World) (h : w.is_open = false) :
    RelayProtocol.query_status w =
      (.error (.runtimeError "Serial port not open"), w) := by
  simp [RelayProtocol.query_status, RelayProtocol.send_command, h]

theorem get_relay_states_closed (c : Controller) (w : World)
    (h : w.is_open = false) :
    RelayController.get_relay_states c w = (c.relay_states, c, w) := by
  by_cases hc : c.connected = true <;>
    simp [RelayController.get_relay_states, hc, query_status_closed w h]

theorem set_relay_closed (c : Controller) (w : World) (n : Nat) (s : Bool)
    (h : w.is_open = false) :
    RelayController.set_relay c w n s = (false, c, w) := by
  unfold RelayController.set_relay
  split
  · rfl
  · split
    · rfl
    · rw [get_relay_states_closed c w h]
      rcases hbc : RelayProtocol.build_command n s with e | cmd
      · simp [RelayProtocol.set_relay, hbc]
      · simp [RelayProtocol.set_relay, hbc, RelayProtocol.send_command, h]

theorem close_closed (w : World) (h : w.is_open = false) : World.close w = w := by
  cases w
  simp_all [World.close]

theorem cleanup_closed (c : Controller) (w : World) (h : w.is_open = false) :
    RelayController.cleanup c w = (c, w) := by
  unfold RelayController.cleanup
  split
  · rw [set_relay_closed c w 1 false h]
    show ((RelayController.set_relay c w 2 false).2.1,
          World.close (RelayController.set_relay c w 2 false).2.2) = (c, w)
    rw [set_relay_closed c w 2 false h]
    show (c, World.close w) = (c, w)
    rw [close_closed w h]
  · rfl

theorem cleanup_connected (c : Controller) (w : World) :
    ((RelayController.cleanup c w).1).connected = c.connected := by
  unfold RelayController.cleanup
  split
  · rw [set_relay_connected, set_relay_connected]
  · rfl

theorem cleanup_is_open_false (c : Controller) (w : World)
    (hc : c.connected = true) :
    ((RelayController.cleanup c w).2).is_open = false := by
  unfold RelayController.cleanup
  split
  · rfl
  · rename_i hnc
    exact absurd hc (by simpa using hnc)

/-- C5: `cleanup()` always issues the off-command frame for both channels
(their frames appear in the write record) regardless of the cached channel
states and of any injected write/query faults (it does not abort when a
per-channel set fails), closes the transport, is idempotent (running it
again on its own result changes nothing), and is a state-preserving no-op
when the controller is not connected.  For the HID transport, `close`
issues the single all-off command when a device is open and nothing when
not. -/
theorem C5_cleanup_safety (c : Controller) (w : World)
    (hc : c.connected = true) (hopen : w.is_open = true) :
    serial_frame 1 false ∈ ((RelayController.cleanup c w).2).written ∧
    serial_frame 2 false ∈ ((RelayController.cleanup c w).2).written ∧
    ((RelayController.cleanup c w).2).is_open = false ∧
    RelayController.cleanup (RelayController.cleanup c w).1
      (RelayController.cleanup c w).2 = RelayController.cleanup c w ∧
    (∀ c' : Controller, c'.connected = false →
      RelayController.cleanup c' w = (c', w)) ∧
    HIDRelay.close true = [HIDRelay.set_all_relays false] ∧
    HIDRelay.close false = [] := by
  have hr1c : ((RelayController.set_relay c w 1 false).2.1).connected = true :=
    (set_relay_connected c w 1 false).trans hc
  have hk1 : Keeps w (RelayController.set_relay c w 1 false).2.2 :=
    keeps_set_relay c w 1 false
  have hopen1 : ((RelayController.set_relay c w 1 false).2.2).is_open = true :=
    hk1.1.trans hopen
  have hmem1 : serial_frame 1 false ∈
      ((RelayController.set_relay c w 1 false).2.2).written :=
    set_relay_issues_frame c w 1 false hc hopen (Or.inl rfl)
  have hk2 : Keeps (RelayController.set_relay c w 1 false).2.2
      (RelayController.set_relay (RelayController.set_relay c w 1 false).2.1
        (RelayController.set_relay c w 1 false).2.2 2 false).2.2 :=
    keeps_set_relay _ _ 2 false
  have hmem2 : serial_frame 2 false ∈
      ((RelayController.set_relay (RelayController.set_relay c w 1 false).2.1
        (RelayController.set_relay c w 1 false).2.2 2 false).2.2).written :=
    set_relay_issues_frame _ _ 2 false hr1c hopen1 (Or.inr rfl)
  have hclean : RelayController.cleanup c w =
      ((RelayController.set_relay (RelayController.set_relay c w 1 false).2.1
          (RelayController.set_relay c w 1 false).2.2 2 false).2.1,
       World.close
        (RelayController.set_relay (RelayController.set_relay c w 1 false).2.1
          (RelayController.set_relay c w 1 false).2.2 2 false).2.2) := by
    unfold RelayController.cleanup
    split
    · rfl
    · rename_i hnc
      exact absurd hc (by simpa using hnc)
  refine ⟨?_, ?_, cleanup_is_open_false c w hc, ?_, ?_, rfl, rfl⟩
  · have hmem := mem_written_of_keeps hmem1 hk2
    rw [hclean]
    exact hmem
  · rw [hclean]
    exact hmem2
  · have hop := cleanup_is_open_false c w hc
    rw [cleanup_closed _ _ hop]
  · intro c' hc'
    unfold RelayController.cleanup
    split
    · rename_i hcc
      rw [hc'] at hcc
      exact absurd hcc (by simp)
    · rfl

/-- Witness for C5 at a concrete connected controller and healthy port,
with the disconnected no-op instantiated at the freshly-initialized
controller. -/
theorem C5_cleanup_safety_witness :
    serial_frame 1 false ∈ ((RelayController.cleanup cConn wHealthy).2).written ∧
    serial_frame 2 false ∈ ((RelayController.cleanup cConn wHealthy).2).written ∧
    ((RelayController.cleanup cConn wHealthy).2).is_open = false ∧
    RelayController.cleanup (RelayController.cleanup cConn wHealthy).1
      (RelayController.cleanup cConn wHealthy).2 =
      RelayController.cleanup cConn wHealthy ∧
    RelayController.cleanup RelayController.init wHealthy =
      (RelayController.init, wHealthy) ∧
    HIDRelay.close true = [HIDRelay.set_all_relays false] ∧
    HIDRelay.close false = [] :=
  ⟨(C5_cleanup_safety cConn wHealthy rfl rfl).1,
   (C5_cleanup_safety cConn wHealthy rfl rfl).2.1,
   (C5_cleanup_safety cConn wHealthy rfl rfl).2.2.1,
   (C5_cleanup_safety cConn wHealthy rfl rfl).2.2.2.1,
   (C5_cleanup_safety cConn wHealthy rfl rfl).2.2.2.2.1 RelayController.init rfl,
   (C5_cleanup_safety cConn wHealthy rfl rfl).2.2.2.2.2.1,
   (C5_cleanup_safety cConn wHealthy rfl rfl).2.2.2.2.2.2⟩
